import Mathlib

/-!
Shallow embedding of the ATOMS3 Switch macro player firmware
(`switch_macro_player.ino` and `SwitchHID.cpp`).

The embedding models:
* the 8-byte HID report and the `SwitchControllerHID` report mutators;
* the `MacroPlayer` class (event index, start time, loop settings);
* the global device state (status, statusChanged flag, receive buffer,
  persisted blob, in-memory parsed document);
* the BLE `onWrite` / `onDisconnect` callbacks and the relevant slices of
  `loop()` (the button handler and the PLAYING/WAITING playback logic).

External capabilities are modelled as parameters: JSON parsing
(`deserializeJson`) is a `String → Option MacroDoc` argument, the LittleFS
write success is a `Bool` argument (`fsOk`), and the USB transport readiness
(`hid.ready()` / `SendReport`) is a `Bool` argument (`sendOk`).  Arduino
`millis()` is the `now : ℕ` argument of each tick.  Every send attempted by
the firmware is recorded as a `(Report × Bool)` pair (the report and whether
the transport accepted it).
-/

/-- Device status enum from the sketch (`enum DeviceStatus`). -/
inductive DeviceStatus
  | IDLE
  | CONNECTED
  | TRANSFERRING
  | READY
  | PLAYING
  | WAITING
  | ERROR
deriving DecidableEq

/-- Hat switch directions from `SwitchHID.h` (`enum class Hat`). -/
inductive Hat
  | TOP
  | TOP_RIGHT
  | RIGHT
  | BOTTOM_RIGHT
  | BOTTOM
  | BOTTOM_LEFT
  | LEFT
  | TOP_LEFT
  | CENTER
deriving DecidableEq

/-- Numeric value of a hat direction (the enum values in `SwitchHID.h`). -/
def Hat.toByte : Hat → ℕ
  | .TOP => 0
  | .TOP_RIGHT => 1
  | .RIGHT => 2
  | .BOTTOM_RIGHT => 3
  | .BOTTOM => 4
  | .BOTTOM_LEFT => 5
  | .LEFT => 6
  | .TOP_LEFT => 7
  | .CENTER => 8

/-- The 8-byte HID report buffer `_report` of `SwitchControllerHID`.
Byte 0/1: buttons, byte 2: hat, bytes 3-6: stick bytes, byte 7: vendor. -/
structure Report where
  b0 : ℕ
  b1 : ℕ
  b2 : ℕ
  b3 : ℕ
  b4 : ℕ
  b5 : ℕ
  b6 : ℕ
  b7 : ℕ
deriving DecidableEq

/-- Method `SwitchControllerHID::releaseAll`: zero the report, hat to center (8),
sticks to midpoint (128). -/
def releaseAll (r : Report) : Report :=
  { r with b0 := 0, b1 := 0, b2 := 8, b3 := 128, b4 := 128,
           b5 := 128, b6 := 128, b7 := 0 }

/-- Method `SwitchControllerHID::setButtonMask`: byte 0 is the low 8 bits, byte 1
the next 6 bits (`(mask >> 8) & 0x3F`). -/
def setButtonMask (r : Report) (mask : ℕ) : Report :=
  { r with b0 := mask % 256, b1 := (mask / 256) % 64 }

/-- Method `SwitchControllerHID::setHat`: low 4 bits of byte 2. -/
def setHat (r : Report) (h : Hat) : Report :=
  { r with b2 := h.toByte % 16 }

/-- Method `SwitchControllerHID::setLeftStickRaw`. -/
def setLeftStickRaw (r : Report) (x y : ℕ) : Report :=
  { r with b3 := x % 256, b4 := y % 256 }

/-- Method `SwitchControllerHID::setRightStickRaw`. -/
def setRightStickRaw (r : Report) (x y : ℕ) : Report :=
  { r with b5 := x % 256, b6 := y % 256 }

/-- Method `SwitchControllerHID::setLeftStick(float,float)`: clamp each coordinate
to [-1,1], then store `(uint8_t)((v + 1.0f) * 127.5f)`; the C cast of a
non-negative float to `uint8_t` truncates, i.e. takes the floor.
Floats are embedded as rationals. -/
def setLeftStick (r : Report) (x y : ℚ) : Report :=
  let x := if x < -1 then -1 else x
  let x := if x > 1 then 1 else x
  let y := if y < -1 then -1 else y
  let y := if y > 1 then 1 else y
  { r with b3 := (⌊(x + 1) * (127.5 : ℚ)⌋).toNat,
           b4 := (⌊(y + 1) * (127.5 : ℚ)⌋).toNat }

/-- Method `SwitchControllerHID::setRightStick(float,float)`: same mapping as the
left stick, stored in bytes 5 and 6. -/
def setRightStick (r : Report) (x y : ℚ) : Report :=
  let x := if x < -1 then -1 else x
  let x := if x > 1 then 1 else x
  let y := if y < -1 then -1 else y
  let y := if y > 1 then 1 else y
  { r with b5 := (⌊(x + 1) * (127.5 : ℚ)⌋).toNat,
           b6 := (⌊(y + 1) * (127.5 : ℚ)⌋).toNat }

/-- Two's-complement conversion of an arbitrary integer to the `int8_t`
range [-128,127] (C implicit conversion on the ESP32). -/
def int8cast (z : ℤ) : ℤ := (z + 128) % 256 - 128

/-- Conversion of an arbitrary integer to `uint32_t`. -/
def uint32cast (z : ℤ) : ℕ := (z % ((2 : ℤ) ^ 32)).toNat

/-- The `uint8_t` value of an integer (used for `(uint8_t)(lx + 128)`). -/
def uint8cast (z : ℤ) : ℕ := (z % 256).toNat

/-- Method `MacroPlayer::updateHID`: clear the report, set the 14-bit button mask,
translate d-pad bits 16-19 to a hat direction, store the stick bytes as
`int8 + 128`, and attempt one send.  The resulting report is returned; send
success is modelled at the call sites. -/
def updateHID (buttons : ℕ) (lx ly rx ry : ℤ) : Report :=
  let r := releaseAll ⟨0, 0, 0, 0, 0, 0, 0, 0⟩
  let r := setButtonMask r (buttons % 16384)
  let u := buttons.testBit 16
  let d := buttons.testBit 17
  let lf := buttons.testBit 18
  let rt := buttons.testBit 19
  let h : Hat :=
    if u && rt then .TOP_RIGHT
    else if u && lf then .TOP_LEFT
    else if d && rt then .BOTTOM_RIGHT
    else if d && lf then .BOTTOM_LEFT
    else if u then .TOP
    else if d then .BOTTOM
    else if lf then .LEFT
    else if rt then .RIGHT
    else .CENTER
  let r := setHat r h
  let r := setLeftStickRaw r (uint8cast (lx + 128)) (uint8cast (ly + 128))
  setRightStickRaw r (uint8cast (rx + 128)) (uint8cast (ry + 128))

/-- The all-released neutral report, as produced by
`MacroPlayer::stop()`'s call `updateHID(0, 0, 0, 0, 0)`. -/
def neutralReport : Report := updateHID 0 0 0 0 0

/-- One timed input event of the persisted document:
`{"t":int,"b":[bits],"a":[4 floats]}`.  Missing axis entries read as 0. -/
structure Event where
  t : ℕ
  b : List ℕ
  a : List ℚ
deriving DecidableEq

/-- The fold `buttons |= (1 << b)` over the `"b"` array. -/
def buttonsOfList (bs : List ℕ) : ℕ := bs.foldl (fun acc i => acc ||| 2 ^ i) 0

/-- C float-to-int truncation toward zero, on rationals. -/
def truncQ (x : ℚ) : ℤ := if x < 0 then -⌊-x⌋ else ⌊x⌋

/-- The cast `(int8_t)(axes[i].as<float>() * 127)` for axis `i` of an event. -/
def axisInt8 (ev : Event) (i : ℕ) : ℤ := int8cast (truncQ (ev.a.getD i 0 * 127))

/-- Method `MacroPlayer::updateFromEvent`: build the button mask from the bit-index
array and scale the four axes to int8, then hand off to `updateHID`. -/
def updateFromEvent (ev : Event) : Report :=
  updateHID (buttonsOfList ev.b) (axisInt8 ev 0) (axisInt8 ev 1)
    (axisInt8 ev 2) (axisInt8 ev 3)

/-- The parsed macro document.  The loop fields are optional: ArduinoJson
reads missing fields as null and `loadSettings` substitutes defaults. -/
structure MacroDoc where
  enabled : Option Bool
  count : Option ℕ
  interval : Option ℕ
  events : List Event
deriving DecidableEq

/-- The document left in `currentMacro` after `deserializeJson` fails:
the freshly allocated document is cleared, so every field reads as null. -/
def failedDoc : MacroDoc := ⟨none, none, none, []⟩

/-- The `MacroPlayer` fields (`eventIndex`, `startTime`, `waitStartTime`,
`remainingLoops`, and the loop settings loaded by `loadSettings`). -/
structure PlayerState where
  eventIndex : ℕ
  startTime : ℕ
  waitStartTime : ℕ
  remainingLoops : ℕ
  loopEnabled : Bool
  loopCount : ℕ
  loopInterval : ℕ
deriving DecidableEq

/-- Method `MacroPlayer::loadSettings`: read the loop config with defaults
(`loop["enabled"] | false`, `loop["count"] | 0`, `loop["interval"] | 0`). -/
def PlayerState.loadSettings (p : PlayerState) (m : MacroDoc) : PlayerState :=
  { p with loopEnabled := m.enabled.getD false,
           loopCount := m.count.getD 0,
           loopInterval := m.interval.getD 0 }

/-- Method `MacroPlayer::start`: reset the index, record the start time, and set
`remainingLoops = loopEnabled ? (loopCount == 0 ? 0 : loopCount) : 1`. -/
def PlayerState.start (p : PlayerState) (now : ℕ) : PlayerState :=
  { p with eventIndex := 0,
           startTime := now,
           remainingLoops :=
             if p.loopEnabled then (if p.loopCount = 0 then 0 else p.loopCount)
             else 1 }

/-- The firmware's global state: `currentStatus`, `statusChanged`,
`rxBuffer`, the persisted LittleFS blob, `currentMacro`, and the player. -/
structure DeviceState where
  status : DeviceStatus
  statusChanged : Bool
  rxBuffer : String
  storage : Option String
  currentMacro : Option MacroDoc
  player : PlayerState
deriving DecidableEq

/-- Arduino `String::indexOf(ch, from)`: the `from` argument is converted
to `unsigned int`; returns -1 when `from` is past the end or the character
does not occur at or after `from`. -/
def indexOfA (sv : String) (ch : Char) (frm : ℤ) : ℤ :=
  let n := sv.length
  let fu := (frm % ((2 : ℤ) ^ 32)).toNat
  if fu ≥ n then -1
  else
    match ((sv.toList.drop fu).findIdx? (fun c => c == ch)) with
    | some i => ((fu + i : ℕ) : ℤ)
    | none => -1

/-- Arduino `String::substring(left, right)`: both bounds are converted to
`unsigned int`, swapped if out of order, and clamped to the length. -/
def substringA (sv : String) (l r : ℤ) : String :=
  let n := sv.length
  let lu := (l % ((2 : ℤ) ^ 32)).toNat
  let ru := (r % ((2 : ℤ) ^ 32)).toNat
  let lo := min lu ru
  let hi := max lu ru
  if lo ≥ n then "" else String.mk ((sv.toList.take (min hi n)).drop lo)

/-- Arduino one-argument `String::substring(left)` = `substring(left, len)`. -/
def substringFromA (sv : String) (l : ℤ) : String :=
  substringA sv l (sv.length : ℤ)

/-- Accumulate decimal digits, stopping at the first non-digit (`atol`). -/
def digitsVal : List Char → ℤ → ℤ
  | c :: cs, acc =>
      if c.isDigit then digitsVal cs (acc * 10 + ((c.toNat - '0'.toNat : ℕ) : ℤ))
      else acc
  | [], acc => acc

/-- Arduino `String::toInt` (`atol`): skip leading whitespace, optional
sign, then digits; no digits gives 0. -/
def toIntA (sv : String) : ℤ :=
  let cs := sv.toList.dropWhile (fun c => c.isWhitespace)
  match cs with
  | '-' :: rest => -(digitsVal rest 0)
  | '+' :: rest => digitsVal rest 0
  | _ => digitsVal cs 0

/-- The live-frame fast parse in `MyCallbacks::onWrite`: locate the four
delimiting colons after position 2 and convert the five substrings. -/
def liveParse (sv : String) : ℤ × ℤ × ℤ × ℤ × ℤ :=
  let f := indexOfA sv ':' 2
  let s := indexOfA sv ':' (f + 1)
  let t := indexOfA sv ':' (s + 1)
  let fo := indexOfA sv ':' (t + 1)
  (toIntA (substringA sv 2 f),
   toIntA (substringA sv (f + 1) s),
   toIntA (substringA sv (s + 1) t),
   toIntA (substringA sv (t + 1) fo),
   toIntA (substringFromA sv (fo + 1)))

/-- The report produced by the live path:
`player.updateHID(...)` with the C argument conversions
(`uint32_t` for the mask, `int8_t` for the four stick values). -/
def liveReport (sv : String) : Report :=
  match liveParse sv with
  | (bm, lx, ly, rx, ry) =>
      updateHID (uint32cast bm) (int8cast lx) (int8cast ly)
        (int8cast rx) (int8cast ry)

/-- Callback `MyCallbacks::onWrite`.  Here `parse` is the `deserializeJson` capability
(`none` = parse error), `fsOk` is whether `LittleFS.open` succeeds for the
write, `sendOk` is the transport readiness for any send attempted.  Returns
the new device state and the list of send attempts `(report, accepted)`. -/
def onWrite (parse : String → Option MacroDoc) (fsOk sendOk : Bool)
    (st : DeviceState) (value : String) : DeviceState × List (Report × Bool) :=
  match value.toList with
  | 'L' :: ':' :: _ :: _ =>
      -- live frame: value.length() > 2 && value[0] == 'L' && value[1] == ':'
      (st, [(liveReport value, sendOk)])
  | _ =>
      if value.startsWith ("START:") then
        ({ st with rxBuffer := "", status := .TRANSFERRING,
                   statusChanged := true }, [])
      else if value = "END" then
        let storage := if fsOk then some st.rxBuffer else st.storage
        match parse st.rxBuffer with
        | none =>
            ({ st with storage := storage, currentMacro := some failedDoc,
                       status := .ERROR, statusChanged := true }, [])
        | some m =>
            ({ st with storage := storage, currentMacro := some m,
                       player := st.player.loadSettings m,
                       status := .READY, statusChanged := true }, [])
      else if st.status = .TRANSFERRING then
        ({ st with rxBuffer := st.rxBuffer ++ value }, [])
      else (st, [])

/-- Callback `MyServerCallbacks::onDisconnect`: keep the status during PLAYING,
WAITING, and READY; otherwise revert to IDLE. -/
def onDisconnect (st : DeviceState) : DeviceState :=
  if st.status ≠ .PLAYING ∧ st.status ≠ .WAITING ∧ st.status ≠ .READY then
    { st with status := .IDLE, statusChanged := true }
  else st

/-- The `AtomS3.BtnA.wasPressed()` handler in `loop()`: start playback from
READY/IDLE/CONNECTED when a macro is loaded; stop playback when PLAYING
(to CONNECTED when a BLE central is connected, else READY) with one
neutral-report send attempt from `player.stop()`. -/
def buttonPress (now : ℕ) (connected sendOk : Bool) (st : DeviceState) :
    DeviceState × List (Report × Bool) :=
  if (st.status = .READY ∨ st.status = .IDLE ∨ st.status = .CONNECTED)
      ∧ st.currentMacro.isSome then
    ({ st with status := .PLAYING, statusChanged := true,
               player := st.player.start now }, [])
  else if st.status = .PLAYING then
    ({ st with status := if connected then .CONNECTED else .READY,
               statusChanged := true }, [(neutralReport, sendOk)])
  else (st, [])

/-- Placeholder event used for in-range list indexing. -/
def dummyEvent : Event := ⟨0, [], []⟩

/-- The playback section of `loop()`: the PLAYING branch (exhaustion check,
loop policy, timed event dispatch with retry-on-failed-send) and the
WAITING branch (interval countdown).  `now` is `millis()`, `sendOk` the
transport readiness; returns the new state and all send attempts. -/
def tickPlay (now : ℕ) (sendOk : Bool) (st : DeviceState) :
    DeviceState × List (Report × Bool) :=
  match st.status, st.currentMacro with
  | .PLAYING, some m =>
      let evs := m.events
      if st.player.eventIndex < evs.length then
        let ev := evs.getD st.player.eventIndex dummyEvent
        if ev.t ≤ now - st.player.startTime then
          if sendOk then
            ({ st with player :=
                 { st.player with eventIndex := st.player.eventIndex + 1 } },
             [(updateFromEvent ev, true)])
          else (st, [(updateFromEvent ev, false)])
        else (st, [])
      else
        -- all events done: player.stop() sends neutral, result ignored
        if st.player.loopEnabled
            ∧ (st.player.loopCount = 0 ∨ st.player.remainingLoops > 1) then
          let p1 :=
            if st.player.loopCount > 0 then
              { st.player with remainingLoops := st.player.remainingLoops - 1 }
            else st.player
          if p1.loopInterval > 0 then
            ({ st with status := .WAITING, statusChanged := true,
                       player := { p1 with waitStartTime := now } },
             [(neutralReport, sendOk)])
          else
            ({ st with player := { p1 with eventIndex := 0, startTime := now } },
             [(neutralReport, sendOk)])
        else
          ({ st with status := .READY, statusChanged := true },
           [(neutralReport, sendOk)])
  | .WAITING, _ =>
      if st.player.loopInterval * 1000 ≤ now - st.player.waitStartTime then
        ({ st with status := .PLAYING, statusChanged := true,
                   player := { st.player with eventIndex := 0, startTime := now } },
         [])
      else (st, [])
  | _, _ => (st, [])

/-- The `now` value of a driving schedule under which the currently due
event fires immediately: the pass start time plus the current event's
timestamp (start time alone once the pass is exhausted). -/
def autoNow (st : DeviceState) : ℕ :=
  match st.currentMacro with
  | some m =>
      if st.player.eventIndex < m.events.length then
        st.player.startTime + (m.events.getD st.player.eventIndex dummyEvent).t
      else st.player.startTime
  | none => st.player.startTime

/-- Drive `tickPlay` for `fuel` ticks with an always-ready transport under
the `autoNow` schedule.  Returns the final state, the list of events whose
report was actually sent (in execution order), and whether any tick ended
in the WAITING status. -/
def runAuto : ℕ → DeviceState → DeviceState × List Event × Bool
  | 0, st => (st, [], false)
  | n + 1, st =>
      let st1 := (tickPlay (autoNow st) true st).1
      let ex : List Event :=
        match st.status, st.currentMacro with
        | .PLAYING, some m =>
            if st.player.eventIndex < m.events.length
                ∧ st1.player.eventIndex = st.player.eventIndex + 1 then
              [m.events.getD st.player.eventIndex dummyEvent]
            else []
        | _, _ => []
      let saw : Bool := decide (st1.status = .WAITING)
      let rest := runAuto n st1
      (rest.1, ex ++ rest.2.1, saw || rest.2.2)

/-- A sample parsed document with looping enabled: used as a previously
loaded macro in concrete instantiations. -/
def mC1 : MacroDoc := ⟨some true, some 2, some 1, [⟨5, [0], [1, 0, 0, 0]⟩]⟩

/-- Player settings matching `mC1` after `loadSettings`. -/
def pC1 : PlayerState := ⟨0, 0, 0, 0, true, 2, 1⟩

/-- A READY device holding `mC1` in memory and an unparseable receive
buffer, about to process an END message. -/
def stC1 : DeviceState := ⟨.READY, false, ("garbage"), some ("oldblob"), some mC1, pC1⟩

/-- A sample single-event looping document (infinite loop, no interval). -/
def mC2 : MacroDoc := ⟨some true, some 0, some 0, [⟨2, [0], [1, 0, 0, 0]⟩]⟩

/-- A PLAYING device mid-pass on `mC2` (eventIndex 0). -/
def stC2 : DeviceState := ⟨.PLAYING, false, (""), none, some mC2, ⟨0, 0, 0, 0, true, 0, 0⟩⟩

/-- A PLAYING device on `mC2` whose pass is exhausted (eventIndex 1). -/
def stC2x : DeviceState := ⟨.PLAYING, false, (""), none, some mC2, ⟨1, 0, 0, 0, true, 0, 0⟩⟩

/-- An empty document with looping disabled. -/
def mC3 : MacroDoc := ⟨none, none, none, []⟩

/-- A PLAYING device on `mC3` at pass exhaustion with looping disabled. -/
def stC3 : DeviceState := ⟨.PLAYING, false, (""), none, some mC3, ⟨0, 0, 0, 1, false, 0, 0⟩⟩

/-- A TRANSFERRING device with a partially filled receive buffer. -/
def stC6 : DeviceState := ⟨.TRANSFERRING, false, ("AB"), none, none, ⟨0, 0, 0, 0, false, 0, 0⟩⟩

/-- A PLAYING device used to exercise the live path mid-playback. -/
def stC6w : DeviceState := ⟨.PLAYING, false, (""), none, some mC1, pC1⟩

/-- A PLAYING device mid-macro (eventIndex 3) used for stop-button tests. -/
def stC8 : DeviceState := ⟨.PLAYING, false, (""), none, some mC1, ⟨3, 0, 0, 1, true, 2, 1⟩⟩

/-- C7: a wireless disconnect leaves the status unchanged when it is
PLAYING, WAITING, or READY, and reverts every other status to IDLE. -/
theorem C7_disconnect_status :
    ∀ st : DeviceState,
      onDisconnect st =
        if st.status = .PLAYING ∨ st.status = .WAITING ∨ st.status = .READY
        then st
        else { st with status := .IDLE, statusChanged := true } := by
  intro st
  obtain ⟨s, c, b, g, m, p⟩ := st
  cases s <;> simp [onDisconnect]

/-- C9: a physical button press results in the PLAYING status exactly when
the current status is READY, IDLE, or CONNECTED and a macro document is
loaded in memory. -/
theorem C9_playing_requires_ready_and_doc :
    ∀ (st : DeviceState) (now : ℕ) (conn sendOk : Bool),
      ((buttonPress now conn sendOk st).1.status = .PLAYING) ↔
        ((st.status = .READY ∨ st.status = .IDLE ∨ st.status = .CONNECTED)
          ∧ st.currentMacro.isSome = true) := by
  intro st now conn sendOk
  obtain ⟨s, c, b, g, m, p⟩ := st
  cases s <;> cases m <;> cases conn <;> simp [buttonPress]

/-- C10: an incoming write of exactly END runs the full finalize path in
every device status: the receive buffer is written to storage (when the
file opens), the in-memory document is discarded and replaced, the parse
is attempted, and the status becomes READY or ERROR according to the parse
result — there is no guard requiring the TRANSFERRING status. -/
theorem C10_end_no_transferring_guard :
    ∀ (parse : String → Option MacroDoc) (fsOk sendOk : Bool) (st : DeviceState),
      (onWrite parse fsOk sendOk st ("END")).1.storage
          = (if fsOk then some st.rxBuffer else st.storage)
        ∧ (onWrite parse fsOk sendOk st ("END")).1.currentMacro
          = some ((parse st.rxBuffer).getD failedDoc)
        ∧ (onWrite parse fsOk sendOk st ("END")).1.status
          = (if (parse st.rxBuffer).isSome then DeviceStatus.READY else .ERROR)
        ∧ (onWrite parse fsOk sendOk st ("END")).1.statusChanged = true
        ∧ (onWrite parse fsOk sendOk st ("END")).2 = [] := by
  intro parse fsOk sendOk st
  have hE : ("END").toList = ['E', 'N', 'D'] := rfl
  have hS : ("END").startsWith ("START:") = false := rfl
  simp only [onWrite, hE]
  cases hp : parse st.rxBuffer <;> simp [hp, hS]

/-- C1 (amended): when the accumulated buffer of an END message fails the
structured parse, the status transitions to ERROR and the player's loop
settings stay unchanged, but the handler has already written the buffer to
persistent storage and has discarded and replaced the in-memory document
with the cleared one. -/
theorem C1_end_parse_failure_effects :
    ∀ (parse : String → Option MacroDoc) (sendOk : Bool) (st : DeviceState),
      parse st.rxBuffer = none →
        (onWrite parse true sendOk st ("END")).1.status = .ERROR
        ∧ (onWrite parse true sendOk st ("END")).1.storage = some st.rxBuffer
        ∧ (onWrite parse true sendOk st ("END")).1.currentMacro = some failedDoc
        ∧ (onWrite parse true sendOk st ("END")).1.player = st.player
        ∧ (onWrite parse true sendOk st ("END")).2 = [] := by
  intro parse sendOk st hp
  have hE : ("END").toList = ['E', 'N', 'D'] := rfl
  have hS : ("END").startsWith ("START:") = false := rfl
  simp only [onWrite, hE]
  simp [hp, hS]

/-- Witness for C1: a concrete END with an unparseable buffer on a READY
device holding a previously loaded macro. -/
theorem C1_end_parse_failure_effects_witness :
    (onWrite (fun _ => none) true true stC1 ("END")).1.status = .ERROR
    ∧ (onWrite (fun _ => none) true true stC1 ("END")).1.storage = some stC1.rxBuffer
    ∧ (onWrite (fun _ => none) true true stC1 ("END")).1.currentMacro = some failedDoc
    ∧ (onWrite (fun _ => none) true true stC1 ("END")).1.player = stC1.player
    ∧ (onWrite (fun _ => none) true true stC1 ("END")).2 = [] :=
  C1_end_parse_failure_effects (fun _ => none) true stC1 rfl

/-- Counterexample for C1 as stated: on a failing parse the handler still
writes the buffer to storage and replaces the previously loaded in-memory
macro. -/
theorem C1_counterexample_persists_and_replaces :
    (onWrite (fun _ => none) true true stC1 ("END")).1.storage ≠ stC1.storage
    ∧ (onWrite (fun _ => none) true true stC1 ("END")).1.currentMacro ≠ stC1.currentMacro := by
  decide

/-- C6 (amended): an incoming write whose value starts with the two
characters L and colon and has length greater than 2 takes the live path
in every device status: the five colon-delimited integers are parsed,
applied to the HID report via `updateHID`, one send is attempted, and the
device state (status, statusChanged, receive buffer, storage, document,
and full player state) is left unchanged. -/
theorem C6_live_frame_bypass :
    ∀ (parse : String → Option MacroDoc) (fsOk sendOk : Bool) (st : DeviceState)
      (v : String) (c : Char) (rest : List Char),
      v.toList = 'L' :: ':' :: c :: rest →
        onWrite parse fsOk sendOk st v = (st, [(liveReport v, sendOk)]) := by
  intro parse fsOk sendOk st v c rest h
  unfold onWrite
  rw [h]
  rfl

/-- Witness for C6: the live frame arriving mid-playback parses to
(5, 10, -20, 0, 0) and overwrites the report without touching the state. -/
theorem C6_live_frame_bypass_witness :
    onWrite (fun _ => none) true true stC6w ("L:5:10:-20:0:0")
      = (stC6w, [(updateHID 5 10 (-20) 0 0, true)]) := by
  have h := C6_live_frame_bypass (fun _ => none) true true stC6w ("L:5:10:-20:0:0") '5'
    [':', '1', '0', ':', '-', '2', '0', ':', '0', ':', '0'] rfl
  rw [h]
  decide

/-- Counterexample for C6 as stated: the two-character message consisting
of just L and colon starts with that prefix but fails the length guard; in
the TRANSFERRING status it is appended to the receive buffer and no send
is attempted. -/
theorem C6_counterexample_bare_live_prefix :
    (onWrite (fun _ => none) true true stC6 ("L:")).1.rxBuffer ≠ stC6.rxBuffer
    ∧ (onWrite (fun _ => none) true true stC6 ("L:")).2 = [] := by
  decide

/-- C8 (amended): a button press while PLAYING stops playback with one
neutral-report send attempt (buttons 0, hat 8 = center, stick bytes 128)
and leaves eventIndex unchanged; the status becomes CONNECTED when a BLE
central is connected and READY otherwise. -/
theorem C8_button_stop_playing :
    ∀ (now : ℕ) (conn sendOk : Bool) (st : DeviceState),
      st.status = .PLAYING →
        buttonPress now conn sendOk st
          = ({ st with status := if conn then .CONNECTED else .READY,
                       statusChanged := true }, [(neutralReport, sendOk)])
        ∧ (buttonPress now conn sendOk st).1.player.eventIndex = st.player.eventIndex
        ∧ neutralReport = ⟨0, 0, 8, 128, 128, 128, 128, 0⟩ := by
  intro now conn sendOk st h
  refine ⟨?_, ?_, by decide⟩ <;> simp [buttonPress, h]

/-- Witness for C8: pressing the button mid-macro with no central
connected sends the neutral report and returns to READY with eventIndex
still 3. -/
theorem C8_button_stop_playing_witness :
    buttonPress 7 false true stC8
      = ({ stC8 with status := .READY, statusChanged := true }, [(neutralReport, true)]) := by
  have h := C8_button_stop_playing 7 false true stC8 rfl
  simpa using h.1

/-- Counterexample for C8 as stated: with a BLE central connected the
press while PLAYING transitions to CONNECTED, not READY. -/
theorem C8_counterexample_stop_to_connected :
    (buttonPress 0 true true stC8).1.status = .CONNECTED
    ∧ DeviceStatus.CONNECTED ≠ DeviceStatus.READY := by
  decide

/-- C5 (amended): the float stick setters store the clamped value as
floor((v + 1) * 127.5) — C truncation of the non-negative product — not
round; in particular 1.0 encodes to byte 255, -1.0 to byte 0, and 0.0 to
byte 127, and out-of-range inputs clamp to 255 and 0. -/
theorem C5_stick_truncation :
    (∀ (r : Report) (x y : ℚ), -1 ≤ x → x ≤ 1 →
        (setLeftStick r x y).b3 = (⌊(x + 1) * (127.5 : ℚ)⌋).toNat)
    ∧ (∀ (r : Report) (x y : ℚ), -1 ≤ y → y ≤ 1 →
        (setLeftStick r x y).b4 = (⌊(y + 1) * (127.5 : ℚ)⌋).toNat)
    ∧ (∀ (r : Report) (x y : ℚ), -1 ≤ x → x ≤ 1 →
        (setRightStick r x y).b5 = (⌊(x + 1) * (127.5 : ℚ)⌋).toNat)
    ∧ (∀ (r : Report) (x y : ℚ), 1 < x → (setLeftStick r x y).b3 = 255)
    ∧ (∀ (r : Report) (x y : ℚ), x < -1 → (setLeftStick r x y).b3 = 0)
    ∧ (∀ (r : Report) (y : ℚ), (setLeftStick r 1 y).b3 = 255)
    ∧ (∀ (r : Report) (y : ℚ), (setLeftStick r (-1) y).b3 = 0)
    ∧ (∀ (r : Report) (y : ℚ), (setLeftStick r 0 y).b3 = 127) := by
  refine ⟨?_, ?_, ?_, ?_, ?_, ?_, ?_, ?_⟩
  · intro r x y h1 h2
    have hx1 : ¬ x < -1 := not_lt.2 h1
    have hx2 : ¬ x > 1 := not_lt.2 h2
    simp [setLeftStick, hx1, hx2]
  · intro r x y h1 h2
    have hy1 : ¬ y < -1 := not_lt.2 h1
    have hy2 : ¬ y > 1 := not_lt.2 h2
    simp [setLeftStick, hy1, hy2]
  · intro r x y h1 h2
    have hx1 : ¬ x < -1 := not_lt.2 h1
    have hx2 : ¬ x > 1 := not_lt.2 h2
    simp [setRightStick, hx1, hx2]
  · intro r x y h1
    have hx1 : ¬ x < -1 := not_lt.2 (by linarith)
    have hx2 : x > 1 := h1
    simp [setLeftStick, hx1, hx2]
    norm_num
    rfl
  · intro r x y h1
    simp [setLeftStick, h1]
    norm_num
  · intro r y
    norm_num [setLeftStick]
    rfl
  · intro r y
    norm_num [setLeftStick]
  · intro r y
    norm_num [setLeftStick]
    rfl

/-- Witness for C5: the in-range value one half encodes to byte 191
(the floor of 191.25). -/
theorem C5_stick_truncation_witness :
    (setLeftStick ⟨0, 0, 0, 0, 0, 0, 0, 0⟩ (1/2) 0).b3 = 191 := by
  have h := C5_stick_truncation.1 ⟨0, 0, 0, 0, 0, 0, 0, 0⟩ (1/2) 0 (by norm_num) (by norm_num)
  rw [h]
  norm_num
  rfl

/-- Counterexample for C5 as stated: at input 0.99 the stored byte is 253
(truncation of 253.725) while round((0.99 + 1) * 127.5) is 254. -/
theorem C5_counterexample_floor_not_round :
    (setLeftStick ⟨0, 0, 0, 0, 0, 0, 0, 0⟩ (99/100) 0).b3 = 253
    ∧ round (((99 : ℚ)/100 + 1) * 127.5) = 254
    ∧ (253 : ℕ) ≠ 254 := by
  refine ⟨?_, ?_, by decide⟩
  · norm_num [setLeftStick]
    rfl
  · norm_num [round_eq]

/-- C2 (amended): on every tick while PLAYING with eventIndex still inside
the event list, eventIndex is non-decreasing and advances by exactly one
precisely when the current event is due and the send succeeded; a failed
send leaves eventIndex unchanged, so the same event is retried on the next
tick.  (At a pass boundary with looping enabled, eventIndex is instead
reset to 0, so monotonicity holds within a pass, not across passes.) -/
theorem C2_eventIndex_within_pass :
    ∀ (st : DeviceState) (m : MacroDoc) (now : ℕ) (sendOk : Bool),
      st.status = .PLAYING → st.currentMacro = some m →
      st.player.eventIndex < m.events.length →
        (tickPlay now sendOk st).1.player.eventIndex
          = (if (m.events.getD st.player.eventIndex dummyEvent).t ≤ now - st.player.startTime
                ∧ sendOk = true
             then st.player.eventIndex + 1 else st.player.eventIndex)
        ∧ st.player.eventIndex ≤ (tickPlay now sendOk st).1.player.eventIndex := by
  intro st m now sendOk hs hm hidx
  rw [List.getD_eq_getElem m.events dummyEvent hidx]
  by_cases hdue : m.events[st.player.eventIndex].t ≤ now - st.player.startTime
  · cases sendOk <;> simp [tickPlay, hs, hm, hidx, hdue]
  · cases sendOk <;> simp [tickPlay, hs, hm, hidx, hdue]

/-- Witness for C2: a due event whose send fails leaves eventIndex at 0. -/
theorem C2_eventIndex_within_pass_witness :
    (tickPlay 3 false stC2).1.player.eventIndex = 0 := by
  have h := C2_eventIndex_within_pass stC2 mC2 3 false rfl rfl (by decide)
  simpa using h.1

/-- Counterexample for C2 as stated: at pass exhaustion with looping
enabled the tick stays PLAYING but resets eventIndex from 1 to 0, so
eventIndex is not monotonically non-decreasing over all PLAYING ticks. -/
theorem C2_counterexample_reset_on_loop :
    stC2x.status = .PLAYING
    ∧ (tickPlay 9 true stC2x).1.status = .PLAYING
    ∧ (tickPlay 9 true stC2x).1.player.eventIndex < stC2x.player.eventIndex := by
  decide

/-- C3 (amended): a scheduled event report whose send fails is retried —
the tick leaves the whole state unchanged and the same report is attempted
again when due; but the neutral reports are fire-and-forget: at pass
exhaustion and on a stop via the button, one neutral send is attempted and
the resulting state is identical whether that send succeeded or failed
(the failure is never retried). -/
theorem C3_send_retry_policy :
    ∀ (st : DeviceState) (m : MacroDoc) (now : ℕ) (conn : Bool),
      st.status = .PLAYING → st.currentMacro = some m →
        ((st.player.eventIndex < m.events.length →
            (m.events.getD st.player.eventIndex dummyEvent).t ≤ now - st.player.startTime →
              (tickPlay now false st).1 = st
              ∧ (tickPlay now false st).2
                  = [(updateFromEvent (m.events.getD st.player.eventIndex dummyEvent), false)])
          ∧ (m.events.length ≤ st.player.eventIndex →
              (tickPlay now false st).1 = (tickPlay now true st).1
              ∧ (tickPlay now false st).2 = [(neutralReport, false)])
          ∧ ((buttonPress now conn false st).1 = (buttonPress now conn true st).1
              ∧ (buttonPress now conn false st).2 = [(neutralReport, false)])) := by
  intro st m now conn hs hm
  refine ⟨?_, ?_, ?_⟩
  · intro hidx hdue
    rw [List.getD_eq_getElem m.events dummyEvent hidx] at hdue
    constructor <;> simp [tickPlay, hs, hm, hidx, hdue]
  · intro hge
    have hidx : ¬ st.player.eventIndex < m.events.length := not_lt.2 hge
    constructor
    · simp only [tickPlay, hs, hm]
      rw [if_neg hidx, if_neg hidx]
      split_ifs <;> rfl
    · simp only [tickPlay, hs, hm]
      rw [if_neg hidx]
      split_ifs <;> rfl
  · constructor <;> simp [buttonPress, hs]

/-- Witness for C3: at a concrete exhausted pass the state outcome is the
same for a failed and a successful neutral send, and exactly one failed
neutral attempt is recorded. -/
theorem C3_send_retry_policy_witness :
    (tickPlay 9 false stC3).1 = (tickPlay 9 true stC3).1
    ∧ (tickPlay 9 false stC3).2 = [(neutralReport, false)] :=
  ((C3_send_retry_policy stC3 mC3 9 true rfl rfl).2.1) (by decide)

/-- Counterexample for C3 as stated: the neutral report at pass exhaustion
fails to send, the device still transitions to READY, and the next tick
attempts nothing — the neutral report is dropped, not retried. -/
theorem C3_counterexample_neutral_dropped :
    (tickPlay 9 false stC3).2 = [(neutralReport, false)]
    ∧ (tickPlay 9 false stC3).1.status = DeviceStatus.READY
    ∧ (tickPlay 10 true (tickPlay 9 false stC3).1).2 = [] := by
  decide

/-- Auxiliary: under the always-due schedule with a ready transport, a
PLAYING state whose pass has k events left runs those k events in index
order (appending them to the log) and reaches the exhausted index. -/
theorem runAuto_pass (m : MacroDoc) :
    ∀ (k rest : ℕ) (st : DeviceState),
      st.status = .PLAYING → st.currentMacro = some m →
      st.player.eventIndex + k = m.events.length →
        runAuto (k + rest) st
          = ((runAuto rest { st with player := { st.player with eventIndex := m.events.length } }).1,
             m.events.drop st.player.eventIndex
               ++ (runAuto rest { st with player := { st.player with eventIndex := m.events.length } }).2.1,
             (runAuto rest { st with player := { st.player with eventIndex := m.events.length } }).2.2) := by
  intro k
  induction k with
  | zero =>
    intro rest st hs hm h
    obtain ⟨sst, sch, srx, sstor, smac, ⟨i, stt, wstt, rl, le, lc, li⟩⟩ := st
    dsimp only at hs hm h ⊢
    subst hs
    subst hm
    have h1 : i = m.events.length := by omega
    subst h1
    rw [Nat.zero_add, List.drop_length]
    rfl
  | succ k ih =>
    intro rest st hs hm h
    obtain ⟨sst, sch, srx, sstor, smac, ⟨i, stt, wstt, rl, le, lc, li⟩⟩ := st
    dsimp only at hs hm h ⊢
    subst hs
    subst hm
    have hidx : i < m.events.length := by omega
    have hdg : m.events.getD i dummyEvent = m.events[i] :=
      List.getD_eq_getElem m.events dummyEvent hidx
    have harith : k + 1 + rest = (k + rest) + 1 := by omega
    rw [harith]
    simp only [runAuto]
    have hnow : autoNow ⟨.PLAYING, sch, srx, sstor, some m, ⟨i, stt, wstt, rl, le, lc, li⟩⟩
        = stt + m.events[i].t := by
      simp [autoNow, hidx, hdg]
    have htick : tickPlay (stt + m.events[i].t) true
          ⟨.PLAYING, sch, srx, sstor, some m, ⟨i, stt, wstt, rl, le, lc, li⟩⟩
        = (⟨.PLAYING, sch, srx, sstor, some m, ⟨i + 1, stt, wstt, rl, le, lc, li⟩⟩,
           [(updateFromEvent m.events[i], true)]) := by
      have hdue : m.events[i].t ≤ stt + m.events[i].t - stt := by omega
      simp [tickPlay, hidx, hdue, hdg]
    rw [hnow, htick]
    dsimp only
    rw [if_pos ⟨hidx, rfl⟩]
    have ih2 := ih rest ⟨.PLAYING, sch, srx, sstor, some m, ⟨i + 1, stt, wstt, rl, le, lc, li⟩⟩
      rfl rfl (by dsimp only; omega)
    dsimp only at ih2
    rw [ih2]
    rw [hdg, List.drop_eq_getElem_cons hidx]
    rfl

/-- Auxiliary: an exhaustion tick with loop budget remaining (count 3,
interval 0) restarts the pass immediately: eventIndex back to 0, the
remaining-loop counter decremented, no log entry, no WAITING. -/
theorem runAuto_exhaust (m : MacroDoc) (rest : ℕ) (st : DeviceState)
    (hs : st.status = .PLAYING) (hm : st.currentMacro = some m)
    (hidx : st.player.eventIndex = m.events.length)
    (hen : st.player.loopEnabled = true) (hc : st.player.loopCount = 3)
    (hi : st.player.loopInterval = 0) (hr : 1 < st.player.remainingLoops) :
    runAuto (1 + rest) st
      = runAuto rest
          { st with player :=
              ⟨0, st.player.startTime, st.player.waitStartTime,
               st.player.remainingLoops - 1, st.player.loopEnabled,
               st.player.loopCount, st.player.loopInterval⟩ } := by
  obtain ⟨sst, sch, srx, sstor, smac, ⟨i, stt, wstt, rl, le, lc, li⟩⟩ := st
  dsimp only at hs hm hidx hen hc hi hr ⊢
  subst hs
  subst hm
  subst hidx
  subst hen
  subst hc
  subst hi
  rw [show 1 + rest = rest + 1 by omega]
  simp only [runAuto]
  have hnow : autoNow ⟨.PLAYING, sch, srx, sstor, some m,
      ⟨m.events.length, stt, wstt, rl, true, 3, 0⟩⟩ = stt := by
    simp [autoNow]
  have htick : tickPlay stt true ⟨.PLAYING, sch, srx, sstor, some m,
        ⟨m.events.length, stt, wstt, rl, true, 3, 0⟩⟩
      = (⟨.PLAYING, sch, srx, sstor, some m, ⟨0, stt, wstt, rl - 1, true, 3, 0⟩⟩,
         [(neutralReport, true)]) := by
    simp [tickPlay, hr]
  rw [hnow, htick]
  dsimp only
  rw [if_neg (by simp)]
  rfl

/-- Auxiliary: the final exhaustion tick (loop budget down to 1)
transitions to READY with no further log entries and no WAITING. -/
theorem runAuto_finish (m : MacroDoc) (st : DeviceState)
    (hs : st.status = .PLAYING) (hm : st.currentMacro = some m)
    (hidx : st.player.eventIndex = m.events.length)
    (hen : st.player.loopEnabled = true) (hc : st.player.loopCount = 3)
    (hr : st.player.remainingLoops = 1) :
    runAuto 1 st
      = ({ st with status := .READY, statusChanged := true }, [], false) := by
  obtain ⟨sst, sch, srx, sstor, smac, ⟨i, stt, wstt, rl, le, lc, li⟩⟩ := st
  dsimp only at hs hm hidx hen hc hr ⊢
  subst hs
  subst hm
  subst hidx
  subst hen
  subst hc
  subst hr
  simp only [runAuto]
  have hnow : autoNow ⟨.PLAYING, sch, srx, sstor, some m,
      ⟨m.events.length, stt, wstt, 1, true, 3, li⟩⟩ = stt := by
    simp [autoNow]
  have htick : tickPlay stt true ⟨.PLAYING, sch, srx, sstor, some m,
        ⟨m.events.length, stt, wstt, 1, true, 3, li⟩⟩
      = (⟨.READY, true, srx, sstor, some m, ⟨m.events.length, stt, wstt, 1, true, 3, li⟩⟩,
         [(neutralReport, true)]) := by
    simp [tickPlay]
  rw [hnow, htick]
  dsimp only
  rw [if_neg (by simp)]
  rfl

/-- C4: for every macro whose loop settings are enabled with count 3 and
interval 0, loading the settings and starting playback and then ticking
(with a ready transport, under a schedule in which each event becomes due)
until the player stops executes the full event list exactly three times in
index order, never passes through the WAITING status, and ends in READY. -/
theorem C4_loop_three_passes :
    ∀ (events : List Event) (s0 : ℕ),
      (runAuto (3 * events.length + 3)
          ⟨.PLAYING, true, (""), none, some ⟨some true, some 3, some 0, events⟩,
            (PlayerState.loadSettings ⟨0, 0, 0, 0, false, 0, 0⟩
              ⟨some true, some 3, some 0, events⟩).start s0⟩).1.status = .READY
      ∧ (runAuto (3 * events.length + 3)
          ⟨.PLAYING, true, (""), none, some ⟨some true, some 3, some 0, events⟩,
            (PlayerState.loadSettings ⟨0, 0, 0, 0, false, 0, 0⟩
              ⟨some true, some 3, some 0, events⟩).start s0⟩).2.1
        = events ++ events ++ events
      ∧ (runAuto (3 * events.length + 3)
          ⟨.PLAYING, true, (""), none, some ⟨some true, some 3, some 0, events⟩,
            (PlayerState.loadSettings ⟨0, 0, 0, 0, false, 0, 0⟩
              ⟨some true, some 3, some 0, events⟩).start s0⟩).2.2 = false := by
  intro events s0
  have hstart : (PlayerState.loadSettings ⟨0, 0, 0, 0, false, 0, 0⟩
      ⟨some true, some 3, some 0, events⟩).start s0
      = (⟨0, s0, 0, 3, true, 3, 0⟩ : PlayerState) := rfl
  have e3 : 3 * events.length + 3
      = events.length + (1 + (events.length + (1 + (events.length + 1)))) := by ring
  have p1 := runAuto_pass ⟨some true, some 3, some 0, events⟩ events.length
    (1 + (events.length + (1 + (events.length + 1))))
    ⟨.PLAYING, true, (""), none, some ⟨some true, some 3, some 0, events⟩,
      ⟨0, s0, 0, 3, true, 3, 0⟩⟩ rfl rfl (by dsimp only; omega)
  dsimp only at p1
  have e1 := runAuto_exhaust ⟨some true, some 3, some 0, events⟩
    (events.length + (1 + (events.length + 1)))
    ⟨.PLAYING, true, (""), none, some ⟨some true, some 3, some 0, events⟩,
      ⟨events.length, s0, 0, 3, true, 3, 0⟩⟩ rfl rfl rfl rfl rfl rfl (by norm_num)
  dsimp only at e1
  have p2 := runAuto_pass ⟨some true, some 3, some 0, events⟩ events.length
    (1 + (events.length + 1))
    ⟨.PLAYING, true, (""), none, some ⟨some true, some 3, some 0, events⟩,
      ⟨0, s0, 0, 2, true, 3, 0⟩⟩ rfl rfl (by dsimp only; omega)
  dsimp only at p2
  have e2 := runAuto_exhaust ⟨some true, some 3, some 0, events⟩ (events.length + 1)
    ⟨.PLAYING, true, (""), none, some ⟨some true, some 3, some 0, events⟩,
      ⟨events.length, s0, 0, 2, true, 3, 0⟩⟩ rfl rfl rfl rfl rfl rfl (by norm_num)
  dsimp only at e2
  have p3 := runAuto_pass ⟨some true, some 3, some 0, events⟩ events.length 1
    ⟨.PLAYING, true, (""), none, some ⟨some true, some 3, some 0, events⟩,
      ⟨0, s0, 0, 1, true, 3, 0⟩⟩ rfl rfl (by dsimp only; omega)
  dsimp only at p3
  have f1 := runAuto_finish ⟨some true, some 3, some 0, events⟩
    ⟨.PLAYING, true, (""), none, some ⟨some true, some 3, some 0, events⟩,
      ⟨events.length, s0, 0, 1, true, 3, 0⟩⟩ rfl rfl rfl rfl rfl rfl
  dsimp only at f1
  rw [hstart, e3, p1, e1, p2, e2, p3, f1]
  refine ⟨rfl, ?_, rfl⟩
  dsimp only
  simp [List.append_assoc]
